import Mathlib

/-!
# Verification of the FIFF named-matrix codec (`mne/_fiff/matrix.py`)

Shallow embedding of `_transpose_named_matrix`, `_read_named_matrix` and
`write_named_matrix` from `src/mne/_fiff/matrix.py`, together with the
external collaborators they use (`find_tag`, `has_tag`, `write_int`,
`write_name_list`, `write_float_matrix`, `start_block`, `end_block`),
which are not part of the source slice and are therefore modelled from
the specification.

Python `dict` records become Lean structures; in-place mutation becomes
pure record update; exceptions become explicit error values; the write
side-effects on the stream become an explicit list of emitted items.
-/

namespace FIFF

/-- Modelled from the spec: the externally defined tag/block kind
enumeration (`FIFF` constants are defined outside the source slice).
Only distinctness of the five kinds matters to the codec. -/
def FIFFB_MNE_NAMED_MATRIX : Nat := 3102

/-- Modelled from the spec: the row-count tag kind. -/
def FIFF_MNE_NROW : Nat := 3570

/-- Modelled from the spec: the column-count tag kind. -/
def FIFF_MNE_NCOL : Nat := 3571

/-- Modelled from the spec: the row-names tag kind. -/
def FIFF_MNE_ROW_NAMES : Nat := 3572

/-- Modelled from the spec: the column-names tag kind. -/
def FIFF_MNE_COL_NAMES : Nat := 3573

end FIFF

/-- A 2-D numeric array (the numpy payload): a shape together with an
entry function.  `ent i j` is the element in row `i`, column `j`; numpy
arrays are rectangular by construction, which the function representation
reflects.  Numeric entries are modelled as integers-as-reals stand-ins
(`Int`); the codec never inspects entry values, so the carrier is
irrelevant to every claim. -/
structure NDArr where
  nr : Nat
  nc : Nat
  ent : Nat → Nat → Int

/-- `a.size` : total element count, numpy's `data.size`. -/
def NDArr.size (a : NDArr) : Nat := a.nr * a.nc

/-- numpy's `data.T`: a transposed view — shape swapped, entries flipped,
no copy of the underlying values. -/
def NDArr.transpose (a : NDArr) : NDArr :=
  { nr := a.nc, nc := a.nr, ent := fun i j => a.ent j i }

/-- The named-matrix record (a Python `dict` with the five fixed keys). -/
structure NamedMatrix where
  nrow : Nat
  ncol : Nat
  row_names : List String
  col_names : List String
  data : NDArr

/-- `_transpose_named_matrix(mat)`: swap `nrow`/`ncol`, swap
`row_names`/`col_names`, replace `data` with its transpose.  The Python
in-place mutation is embedded as a pure record update. -/
def transpose_named_matrix (mat : NamedMatrix) : NamedMatrix :=
  { nrow := mat.ncol, ncol := mat.nrow,
    row_names := mat.col_names, col_names := mat.row_names,
    data := mat.data.transpose }

/-- The payload of one tag in the stream: an integer scalar, a string, or
a 2-D numeric array. -/
inductive TagData where
  | int (v : Nat)
  | str (s : String)
  | mat (a : NDArr)

/-- Python `":".join(names)` as used by the external `write_name_list`. -/
def joinColon (l : List String) : String :=
  String.mk (List.intercalate [':'] (l.map String.data))

/-- Python `s.split(":")` as used by `_read_named_matrix` on a name-list
tag payload. -/
def splitColon (s : String) : List String :=
  (s.data.splitOn ':').map String.mk

/-- A node of the file's block hierarchy.  `dir` lists the tag kinds
recorded in the node's directory (what `has_tag` consults); `tags`
associates a kind with the payload `find_tag` actually fetches from the
stream.  Keeping the two separate reflects that `has_tag` is a
presence check on the directory while `find_tag` performs the read,
and the two can disagree on a structurally inconsistent file. -/
inductive Node : Type where
  | mk : Nat → List Node → List Nat → List (Nat × TagData) → Node

/-- `node["block"]`. -/
def Node.block : Node → Nat
  | .mk b _ _ _ => b

/-- `node["children"]` (`node["nchild"]` is its length). -/
def Node.children : Node → List Node
  | .mk _ c _ _ => c

/-- The node's directory of tag kinds. -/
def Node.dir : Node → List Nat
  | .mk _ _ d _ => d

/-- The node's fetchable tags. -/
def Node.tags : Node → List (Nat × TagData)
  | .mk _ _ _ t => t

/-- Modelled from the spec: `has_tag(node, kind) -> bool`, a presence
check over the node's own directory, without reading a payload. -/
def has_tag (node : Node) (kind : Nat) : Bool :=
  node.dir.contains kind

/-- Modelled from the spec: `find_tag(fid, node, kind) -> Tag | None`,
fetch one tag by kind from a node; `None` if absent. -/
def find_tag (node : Node) (kind : Nat) : Option TagData :=
  node.tags.lookup kind

/-- Errors `_read_named_matrix` can raise (`ValueError`s in the source,
plus the failure of interpreting a tag payload at the wrong type, which
in Python surfaces as a type/attribute error). -/
inductive ReadError where
  | dataMissing
  | rowDimMismatch
  | colDimMismatch
  | badPayload
deriving DecidableEq

/-- The test `tag is not None and tag.data != n` used for the
`FIFF_MNE_NROW` / `FIFF_MNE_NCOL` cross-checks: an absent tag never
mismatches; an integer tag mismatches when its value differs; a tag of
any other type compares unequal to an integer in Python. -/
def dimTagMismatch : Option TagData → Nat → Bool
  | none, _ => false
  | some (TagData.int v), n => v != n
  | some (TagData.str _), _ => true
  | some (TagData.mat _), _ => true

/-- `tag.data.split(":") if tag is not None else []` for a name-list
tag: absent gives the empty list, a string payload is split on the colon,
a payload of any other type makes `.split` fail (`none`). -/
def readNames : Option TagData → Option (List String)
  | none => some []
  | some (TagData.str s) => some (splitColon s)
  | some (TagData.int _) => none
  | some (TagData.mat _) => none

/-- Step 1 of `_read_named_matrix` ("descend one level if necessary"):
if the node is not a named-matrix block, scan its direct children in
order and take the first that is a named-matrix block and has the
requested tag; otherwise use the node itself provided it has the tag.
`none` is the function's `return None` path. -/
def resolveNode (node : Node) (matkind : Nat) : Option Node :=
  if node.block ≠ FIFF.FIFFB_MNE_NAMED_MATRIX then
    node.children.find? fun c =>
      c.block == FIFF.FIFFB_MNE_NAMED_MATRIX && has_tag c matkind
  else
    if has_tag node matkind then some node else none

/-- `_read_named_matrix(fid, node, matkind, transpose)`: locate the
working node (step 1); fetch the matrix payload, raising
`ValueError("Matrix data missing")` if the fetch fails after the
has-tag check passed; cross-check the optional `FIFF_MNE_NROW` and
`FIFF_MNE_NCOL` tags against the payload's shape; read the optional
name lists; assemble the record and optionally transpose it.
`Except.ok none` is the non-fatal "matrix absent" outcome. -/
def read_named_matrix (node : Node) (matkind : Nat) (transpose : Bool) :
    Except ReadError (Option NamedMatrix) :=
  match resolveNode node matkind with
  | none => Except.ok none
  | some nd =>
    match find_tag nd matkind with
    | none => Except.error ReadError.dataMissing
    | some (TagData.int _) => Except.error ReadError.badPayload
    | some (TagData.str _) => Except.error ReadError.badPayload
    | some (TagData.mat a) =>
      if dimTagMismatch (find_tag nd FIFF.FIFF_MNE_NROW) a.nr then
        Except.error ReadError.rowDimMismatch
      else if dimTagMismatch (find_tag nd FIFF.FIFF_MNE_NCOL) a.nc then
        Except.error ReadError.colDimMismatch
      else
        match readNames (find_tag nd FIFF.FIFF_MNE_ROW_NAMES) with
        | none => Except.error ReadError.badPayload
        | some row_names =>
          match readNames (find_tag nd FIFF.FIFF_MNE_COL_NAMES) with
          | none => Except.error ReadError.badPayload
          | some col_names =>
            let mat : NamedMatrix :=
              { nrow := a.nr, ncol := a.nc, row_names := row_names,
                col_names := col_names, data := a }
            Except.ok (some (if transpose then transpose_named_matrix mat else mat))

/-- Errors `write_named_matrix` can raise.  `shapeMismatch` carries the
data of the `ValueError` message: `n_tot`, `data.size` and the diagnostic
ratio (an exact rational standing for the Python float).
`zeroDivision` is the `ZeroDivisionError` Python raises from
`n_tot / float(mat["data"].size)` when `data.size == 0`. -/
inductive WriteError where
  | zeroDivision
  | shapeMismatch (n_tot size : Nat) (ratio : ℚ)
  | rowNamesLength
  | colNamesLength
deriving DecidableEq

/-- One item emitted to the stream by the write primitives. -/
inductive WItem where
  | startBlock (kind : Nat)
  | tag (kind : Nat) (d : TagData)
  | endBlock (kind : Nat)

/-- Modelled from the spec: `write_int(fid, kind, v)` emits one integer
tag. -/
def write_int (kind : Nat) (v : Nat) : WItem :=
  WItem.tag kind (TagData.int v)

/-- Modelled from the spec: `write_name_list(fid, kind, names)` emits one
string tag holding the colon-joined name list (no escaping of colons
within names). -/
def write_name_list (kind : Nat) (names : List String) : WItem :=
  WItem.tag kind (TagData.str (joinColon names))

/-- Modelled from the spec: `write_float_matrix(fid, kind, a)` emits one
matrix tag whose payload round-trips bit-exactly. -/
def write_float_matrix (kind : Nat) (a : NDArr) : WItem :=
  WItem.tag kind (TagData.mat a)

/-- The diagnostic ratio of the shape-mismatch message:
`ratio = n_tot / float(size)`, inverted whenever `n_tot < size` and the
ratio is positive.  Only called with `size ≠ 0` (the `size = 0` case
raises `ZeroDivisionError` before a ratio exists). -/
def shapeRatio (n_tot size : Nat) : ℚ :=
  let ratio : ℚ := (n_tot : ℚ) / (size : ℚ)
  if n_tot < size ∧ 0 < ratio then 1 / ratio else ratio

/-- Tail of `write_named_matrix` after the column-names field: emit the
payload under the caller's `kind` and close the block. -/
def writeTail (kind : Nat) (mat : NamedMatrix) (out : List WItem) :
    NamedMatrix × List WItem × Option WriteError :=
  (mat,
   out ++ [write_float_matrix kind mat.data,
           WItem.endBlock FIFF.FIFFB_MNE_NAMED_MATRIX],
   none)

/-- The column-names field of `write_named_matrix`: written only when
non-empty, after the length gate against `ncol`. -/
def writeColNames (kind : Nat) (mat : NamedMatrix) (out : List WItem) :
    NamedMatrix × List WItem × Option WriteError :=
  if 0 < mat.col_names.length then
    if mat.col_names.length ≠ mat.ncol then
      (mat, out, some WriteError.colNamesLength)
    else
      writeTail kind mat (out ++ [write_name_list FIFF.FIFF_MNE_COL_NAMES mat.col_names])
  else
    writeTail kind mat out

/-- `write_named_matrix(fid, kind, mat)`.  The result is the record as
the call leaves it, the items emitted to the stream, and the error
raised, if any.  Mirrors the source order: element-count gate (with its
ratio computation) before anything is emitted; then `start_block` and
the two `write_int` count tags; then the per-field name-list gates and
writes; then the payload and `end_block`. -/
def write_named_matrix (kind : Nat) (mat : NamedMatrix) :
    NamedMatrix × List WItem × Option WriteError :=
  let n_tot := mat.nrow * mat.ncol
  if mat.data.size ≠ n_tot then
    if mat.data.size = 0 then
      (mat, [], some WriteError.zeroDivision)
    else
      (mat, [], some (WriteError.shapeMismatch n_tot mat.data.size
        (shapeRatio n_tot mat.data.size)))
  else
    let out := [WItem.startBlock FIFF.FIFFB_MNE_NAMED_MATRIX,
                write_int FIFF.FIFF_MNE_NROW mat.nrow,
                write_int FIFF.FIFF_MNE_NCOL mat.ncol]
    if 0 < mat.row_names.length then
      if mat.row_names.length ≠ mat.nrow then
        (mat, out, some WriteError.rowNamesLength)
      else
        writeColNames kind mat (out ++ [write_name_list FIFF.FIFF_MNE_ROW_NAMES mat.row_names])
    else
      writeColNames kind mat out

/-- Modelled from the spec: the external tree-builder, restricted to what
the round-trip needs — the tags emitted between the block markers become
the directory and fetchable tags of one named-matrix node. -/
def nodeOfStream (items : List WItem) : Node :=
  let ts := items.filterMap fun i =>
    match i with
    | WItem.tag k d => some (k, d)
    | _ => none
  Node.mk FIFF.FIFFB_MNE_NAMED_MATRIX [] (ts.map Prod.fst) ts

/-- Recognizer for the `shapeMismatch` error, used to state that a
particular failure is not a shape mismatch. -/
def WriteError.isShapeMismatch : WriteError → Bool
  | WriteError.shapeMismatch _ _ _ => true
  | _ => false

/-! ## Concrete records and nodes used as test inputs -/

/-- A 3-by-1 zero array. -/
def arr31 : NDArr := { nr := 3, nc := 1, ent := fun _ _ => 0 }

/-- A 1-by-1 zero array. -/
def arr11 : NDArr := { nr := 1, nc := 1, ent := fun _ _ => 0 }

/-- A 2-by-5 zero array (10 elements). -/
def arr25 : NDArr := { nr := 2, nc := 5, ent := fun _ _ => 0 }

/-- A 0-by-5 zero array (0 elements). -/
def arr05 : NDArr := { nr := 0, nc := 5, ent := fun _ _ => 0 }

/-- A 3-by-4 zero array. -/
def arr34 : NDArr := { nr := 3, nc := 4, ent := fun _ _ => 0 }

/-- A 2-by-2 zero array. -/
def arr22 : NDArr := { nr := 2, nc := 2, ent := fun _ _ => 0 }

/-- Declares 3 rows and 4 columns (12 elements) over a 10-element payload. -/
def matShapeEx : NamedMatrix := ⟨3, 4, [], [], arr25⟩

/-- Declares 1 row and 1 column over an empty (0-element) payload. -/
def matZeroSize : NamedMatrix := ⟨1, 1, [], [], arr05⟩

/-- 3 rows but only 2 row names. -/
def matShortLabels : NamedMatrix := ⟨3, 1, ["a", "b"], [], arr31⟩

/-- 3 rows, no labels at all. -/
def matNoLabels : NamedMatrix := ⟨3, 1, [], [], arr31⟩

/-- A consistent record whose single row name contains the colon
delimiter. -/
def matColonName : NamedMatrix := ⟨1, 1, ["A:B"], [], arr11⟩

/-- A consistent 1-by-1 record with no labels. -/
def matPlain : NamedMatrix := ⟨1, 1, [], [], arr11⟩

/-- A consistent labelled record: row names `A`, `B`, `C`, one column
name `u`. -/
def matABC : NamedMatrix := ⟨3, 1, ["A", "B", "C"], ["u"], arr31⟩

/-- A non-container node whose only child is a named-matrix block that
does not carry tag kind 7: no descendant matches. -/
def nodeNoMatrix : Node :=
  Node.mk 0 [Node.mk FIFF.FIFFB_MNE_NAMED_MATRIX [] [] []] [] []

/-- A named-matrix node holding a 3-by-4 payload under kind 7 and an
explicit row-count tag of 5. -/
def nodeBadRowTag : Node :=
  Node.mk FIFF.FIFFB_MNE_NAMED_MATRIX [] [7]
    [(7, TagData.mat arr34), (FIFF.FIFF_MNE_NROW, TagData.int 5)]

/-- A named-matrix node holding a 2-by-2 payload under kind 7 and a
row-names tag decoding to three names. -/
def nodeLongNames : Node :=
  Node.mk FIFF.FIFFB_MNE_NAMED_MATRIX [] [7]
    [(7, TagData.mat arr22), (FIFF.FIFF_MNE_ROW_NAMES, TagData.str "a:b:c")]

/-- A structurally inconsistent named-matrix node: the directory lists
kind 7 but no tag of kind 7 can be fetched. -/
def nodeGhostDir : Node :=
  Node.mk FIFF.FIFFB_MNE_NAMED_MATRIX [] [7] []

/-! ## Helper lemmas -/

/-- Splitting on the colon is a left inverse of colon-joining for a
non-empty list of names none of which contains a colon. -/
theorem splitColon_joinColon (l : List String) (hne : l ≠ [])
    (hc : ∀ s ∈ l, ':' ∉ s.data) :
    splitColon (joinColon l) = l := by
  unfold splitColon joinColon
  rw [show (String.mk (List.intercalate [':'] (l.map String.data))).data
        = List.intercalate [':'] (l.map String.data) from rfl]
  rw [List.splitOn_intercalate (l.map String.data) ':' (by simpa using hc)
        (by simpa using hne)]
  rw [List.map_map]
  exact List.map_id'' (fun s => rfl) l

/-- `List.find?` returns the first element satisfying the predicate:
there is a position holding the result, and the predicate is false at
every earlier position. -/
theorem find?_first {α : Type} (p : α → Bool) (l : List α) (a : α)
    (h : l.find? p = some a) :
    ∃ i : Nat, ∃ hi : i < l.length,
      l.get ⟨i, hi⟩ = a ∧ p a = true ∧
      ∀ j, ∀ hj : j < i, p (l.get ⟨j, Nat.lt_trans hj hi⟩) = false := by
  induction l with
  | nil => simp [List.find?] at h
  | cons x xs ih =>
    by_cases hx : p x = true
    · rw [List.find?_cons_of_pos xs hx] at h
      refine ⟨0, by simp, ?_, ?_, ?_⟩
      · simpa using (Option.some_inj.mp h)
      · cases Option.some_inj.mp h; exact hx
      · intro j hj; omega
    · rw [List.find?_cons_of_neg xs hx] at h
      obtain ⟨i, hi, hget, hpa, hbefore⟩ := ih h
      refine ⟨i + 1, by simpa using Nat.succ_lt_succ hi, by simpa using hget, hpa, ?_⟩
      intro j hj
      match j with
      | 0 => simpa using hx
      | j + 1 =>
        have hj2 : j < i := Nat.lt_of_succ_lt_succ hj
        simpa using hbefore j hj2

/-- Success-path characterization of the reader: once a node is resolved,
the payload fetch yields a matrix, both dimension cross-checks pass and
both name lists decode, the result is the assembled record. -/
theorem read_success (node : Node) (matkind : Nat) (nd : Node) (a : NDArr)
    (rn cn : List String)
    (hres : resolveNode node matkind = some nd)
    (hmat : find_tag nd matkind = some (TagData.mat a))
    (hrow : dimTagMismatch (find_tag nd FIFF.FIFF_MNE_NROW) a.nr = false)
    (hcol : dimTagMismatch (find_tag nd FIFF.FIFF_MNE_NCOL) a.nc = false)
    (hrn : readNames (find_tag nd FIFF.FIFF_MNE_ROW_NAMES) = some rn)
    (hcn : readNames (find_tag nd FIFF.FIFF_MNE_COL_NAMES) = some cn) :
    read_named_matrix node matkind false =
      Except.ok (some { nrow := a.nr, ncol := a.nc, row_names := rn,
                        col_names := cn, data := a }) := by
  simp only [read_named_matrix, hres, hmat, hrow, hcol, hrn, hcn]
  simp

/-- C2 (amended): for a record with consistent shape, labels either
empty or of the right length and free of the colon delimiter, and a
matrix tag kind distinct from the four reserved metadata tag kinds,
`write_named_matrix` succeeds and `read_named_matrix` on the resulting
block with the same tag kind returns the record exactly. -/
theorem write_read_roundtrip (kind : Nat) (mat : NamedMatrix)
    (hk1 : kind ≠ FIFF.FIFF_MNE_NROW) (hk2 : kind ≠ FIFF.FIFF_MNE_NCOL)
    (hk3 : kind ≠ FIFF.FIFF_MNE_ROW_NAMES) (hk4 : kind ≠ FIFF.FIFF_MNE_COL_NAMES)
    (hr : mat.data.nr = mat.nrow) (hc : mat.data.nc = mat.ncol)
    (hrn : mat.row_names = [] ∨ mat.row_names.length = mat.nrow)
    (hcn : mat.col_names = [] ∨ mat.col_names.length = mat.ncol)
    (hrnc : ∀ s ∈ mat.row_names, ':' ∉ s.data)
    (hcnc : ∀ s ∈ mat.col_names, ':' ∉ s.data) :
    (write_named_matrix kind mat).2.2 = none ∧
    read_named_matrix (nodeOfStream (write_named_matrix kind mat).2.1) kind false
      = Except.ok (some mat) := by
  have hsz : ¬ mat.data.size ≠ mat.nrow * mat.ncol := by
    simp [NDArr.size, hr, hc]
  have e1 : (kind == FIFF.FIFF_MNE_NROW) = false := by simp [hk1]
  have e2 : (kind == FIFF.FIFF_MNE_NCOL) = false := by simp [hk2]
  have e3 : (kind == FIFF.FIFF_MNE_ROW_NAMES) = false := by simp [hk3]
  have e4 : (kind == FIFF.FIFF_MNE_COL_NAMES) = false := by simp [hk4]
  have f3 : (FIFF.FIFF_MNE_ROW_NAMES == kind) = false := by
    simp [(Ne.symm hk3 : FIFF.FIFF_MNE_ROW_NAMES ≠ kind)]
  have f4 : (FIFF.FIFF_MNE_COL_NAMES == kind) = false := by
    simp [(Ne.symm hk4 : FIFF.FIFF_MNE_COL_NAMES ≠ kind)]
  have g1 : (FIFF.FIFF_MNE_NCOL == FIFF.FIFF_MNE_NROW) = false := by decide
  have g2 : (FIFF.FIFF_MNE_ROW_NAMES == FIFF.FIFF_MNE_NROW) = false := by decide
  have g3 : (FIFF.FIFF_MNE_ROW_NAMES == FIFF.FIFF_MNE_NCOL) = false := by decide
  have g4 : (FIFF.FIFF_MNE_COL_NAMES == FIFF.FIFF_MNE_NROW) = false := by decide
  have g5 : (FIFF.FIFF_MNE_COL_NAMES == FIFF.FIFF_MNE_NCOL) = false := by decide
  have g6 : (FIFF.FIFF_MNE_COL_NAMES == FIFF.FIFF_MNE_ROW_NAMES) = false := by decide
  have g7 : (FIFF.FIFF_MNE_ROW_NAMES == FIFF.FIFF_MNE_COL_NAMES) = false := by decide
  by_cases hre : 0 < mat.row_names.length
  case pos =>
    have hrl : mat.row_names.length = mat.nrow := by
      rcases hrn with h | h
      · rw [h] at hre; simp at hre
      · exact h
    have hrne : mat.row_names ≠ [] := by
      intro h; rw [h] at hre; simp at hre
    have hre2 : 0 < mat.nrow := hrl ▸ hre
    by_cases hce : 0 < mat.col_names.length
    case pos =>
      have hcl : mat.col_names.length = mat.ncol := by
        rcases hcn with h | h
        · rw [h] at hce; simp at hce
        · exact h
      have hcne : mat.col_names ≠ [] := by
        intro h; rw [h] at hce; simp at hce
      have hce2 : 0 < mat.ncol := hcl ▸ hce
      have hw : write_named_matrix kind mat =
          (mat, [WItem.startBlock FIFF.FIFFB_MNE_NAMED_MATRIX,
                 WItem.tag FIFF.FIFF_MNE_NROW (TagData.int mat.nrow),
                 WItem.tag FIFF.FIFF_MNE_NCOL (TagData.int mat.ncol),
                 WItem.tag FIFF.FIFF_MNE_ROW_NAMES (TagData.str (joinColon mat.row_names)),
                 WItem.tag FIFF.FIFF_MNE_COL_NAMES (TagData.str (joinColon mat.col_names)),
                 WItem.tag kind (TagData.mat mat.data),
                 WItem.endBlock FIFF.FIFFB_MNE_NAMED_MATRIX], none) := by
        simp [write_named_matrix, writeColNames, writeTail, hsz, hre, hce, hrl, hcl,
              hre2, hce2, write_int, write_name_list, write_float_matrix]
      rw [hw]
      refine ⟨rfl, ?_⟩
      have hread := read_success
        (Node.mk FIFF.FIFFB_MNE_NAMED_MATRIX []
          [FIFF.FIFF_MNE_NROW, FIFF.FIFF_MNE_NCOL, FIFF.FIFF_MNE_ROW_NAMES,
           FIFF.FIFF_MNE_COL_NAMES, kind]
          [(FIFF.FIFF_MNE_NROW, TagData.int mat.nrow),
           (FIFF.FIFF_MNE_NCOL, TagData.int mat.ncol),
           (FIFF.FIFF_MNE_ROW_NAMES, TagData.str (joinColon mat.row_names)),
           (FIFF.FIFF_MNE_COL_NAMES, TagData.str (joinColon mat.col_names)),
           (kind, TagData.mat mat.data)])
        kind
        (Node.mk FIFF.FIFFB_MNE_NAMED_MATRIX []
          [FIFF.FIFF_MNE_NROW, FIFF.FIFF_MNE_NCOL, FIFF.FIFF_MNE_ROW_NAMES,
           FIFF.FIFF_MNE_COL_NAMES, kind]
          [(FIFF.FIFF_MNE_NROW, TagData.int mat.nrow),
           (FIFF.FIFF_MNE_NCOL, TagData.int mat.ncol),
           (FIFF.FIFF_MNE_ROW_NAMES, TagData.str (joinColon mat.row_names)),
           (FIFF.FIFF_MNE_COL_NAMES, TagData.str (joinColon mat.col_names)),
           (kind, TagData.mat mat.data)])
        mat.data mat.row_names mat.col_names
        (by simp [resolveNode, Node.block, has_tag, Node.dir, Node.children,
                  List.contains, List.elem, e1, e2, e3, e4])
        (by simp [find_tag, Node.tags, List.lookup, e1, e2, e3, e4])
        (by simp [find_tag, Node.tags, List.lookup, dimTagMismatch, hr])
        (by simp [find_tag, Node.tags, List.lookup, dimTagMismatch, hc, g1])
        (by simp [find_tag, Node.tags, List.lookup, readNames, g2, g3,
                  splitColon_joinColon mat.row_names hrne hrnc])
        (by simp [find_tag, Node.tags, List.lookup, readNames, g4, g5, g6,
                  splitColon_joinColon mat.col_names hcne hcnc])
      rw [hr, hc] at hread
      exact hread
    case neg =>
      have h0 : mat.col_names.length = 0 := by omega
      have hcey : mat.col_names = [] := List.length_eq_zero.mp h0
      have hw : write_named_matrix kind mat =
          (mat, [WItem.startBlock FIFF.FIFFB_MNE_NAMED_MATRIX,
                 WItem.tag FIFF.FIFF_MNE_NROW (TagData.int mat.nrow),
                 WItem.tag FIFF.FIFF_MNE_NCOL (TagData.int mat.ncol),
                 WItem.tag FIFF.FIFF_MNE_ROW_NAMES (TagData.str (joinColon mat.row_names)),
                 WItem.tag kind (TagData.mat mat.data),
                 WItem.endBlock FIFF.FIFFB_MNE_NAMED_MATRIX], none) := by
        simp [write_named_matrix, writeColNames, writeTail, hsz, hre, hce, hrl,
              hre2, write_int, write_name_list, write_float_matrix]
      rw [hw]
      refine ⟨rfl, ?_⟩
      have hread := read_success
        (Node.mk FIFF.FIFFB_MNE_NAMED_MATRIX []
          [FIFF.FIFF_MNE_NROW, FIFF.FIFF_MNE_NCOL, FIFF.FIFF_MNE_ROW_NAMES, kind]
          [(FIFF.FIFF_MNE_NROW, TagData.int mat.nrow),
           (FIFF.FIFF_MNE_NCOL, TagData.int mat.ncol),
           (FIFF.FIFF_MNE_ROW_NAMES, TagData.str (joinColon mat.row_names)),
           (kind, TagData.mat mat.data)])
        kind
        (Node.mk FIFF.FIFFB_MNE_NAMED_MATRIX []
          [FIFF.FIFF_MNE_NROW, FIFF.FIFF_MNE_NCOL, FIFF.FIFF_MNE_ROW_NAMES, kind]
          [(FIFF.FIFF_MNE_NROW, TagData.int mat.nrow),
           (FIFF.FIFF_MNE_NCOL, TagData.int mat.ncol),
           (FIFF.FIFF_MNE_ROW_NAMES, TagData.str (joinColon mat.row_names)),
           (kind, TagData.mat mat.data)])
        mat.data mat.row_names mat.col_names
        (by simp [resolveNode, Node.block, has_tag, Node.dir, Node.children,
                  List.contains, List.elem, e1, e2, e3, e4])
        (by simp [find_tag, Node.tags, List.lookup, e1, e2, e3, e4])
        (by simp [find_tag, Node.tags, List.lookup, dimTagMismatch, hr])
        (by simp [find_tag, Node.tags, List.lookup, dimTagMismatch, hc, g1])
        (by simp [find_tag, Node.tags, List.lookup, readNames, g2, g3,
                  splitColon_joinColon mat.row_names hrne hrnc])
        (by simp [find_tag, Node.tags, List.lookup, readNames, g4, g5, g6, f4, hcey])
      rw [hr, hc] at hread
      exact hread
  case neg =>
    have h0 : mat.row_names.length = 0 := by omega
    have hrey : mat.row_names = [] := List.length_eq_zero.mp h0
    by_cases hce : 0 < mat.col_names.length
    case pos =>
      have hcl : mat.col_names.length = mat.ncol := by
        rcases hcn with h | h
        · rw [h] at hce; simp at hce
        · exact h
      have hcne : mat.col_names ≠ [] := by
        intro h; rw [h] at hce; simp at hce
      have hce2 : 0 < mat.ncol := hcl ▸ hce
      have hw : write_named_matrix kind mat =
          (mat, [WItem.startBlock FIFF.FIFFB_MNE_NAMED_MATRIX,
                 WItem.tag FIFF.FIFF_MNE_NROW (TagData.int mat.nrow),
                 WItem.tag FIFF.FIFF_MNE_NCOL (TagData.int mat.ncol),
                 WItem.tag FIFF.FIFF_MNE_COL_NAMES (TagData.str (joinColon mat.col_names)),
                 WItem.tag kind (TagData.mat mat.data),
                 WItem.endBlock FIFF.FIFFB_MNE_NAMED_MATRIX], none) := by
        simp [write_named_matrix, writeColNames, writeTail, hsz, hre, hce, hcl,
              hce2, write_int, write_name_list, write_float_matrix]
      rw [hw]
      refine ⟨rfl, ?_⟩
      have hread := read_success
        (Node.mk FIFF.FIFFB_MNE_NAMED_MATRIX []
          [FIFF.FIFF_MNE_NROW, FIFF.FIFF_MNE_NCOL, FIFF.FIFF_MNE_COL_NAMES, kind]
          [(FIFF.FIFF_MNE_NROW, TagData.int mat.nrow),
           (FIFF.FIFF_MNE_NCOL, TagData.int mat.ncol),
           (FIFF.FIFF_MNE_COL_NAMES, TagData.str (joinColon mat.col_names)),
           (kind, TagData.mat mat.data)])
        kind
        (Node.mk FIFF.FIFFB_MNE_NAMED_MATRIX []
          [FIFF.FIFF_MNE_NROW, FIFF.FIFF_MNE_NCOL, FIFF.FIFF_MNE_COL_NAMES, kind]
          [(FIFF.FIFF_MNE_NROW, TagData.int mat.nrow),
           (FIFF.FIFF_MNE_NCOL, TagData.int mat.ncol),
           (FIFF.FIFF_MNE_COL_NAMES, TagData.str (joinColon mat.col_names)),
           (kind, TagData.mat mat.data)])
        mat.data mat.row_names mat.col_names
        (by simp [resolveNode, Node.block, has_tag, Node.dir, Node.children,
                  List.contains, List.elem, e1, e2, e3, e4])
        (by simp [find_tag, Node.tags, List.lookup, e1, e2, e3, e4])
        (by simp [find_tag, Node.tags, List.lookup, dimTagMismatch, hr])
        (by simp [find_tag, Node.tags, List.lookup, dimTagMismatch, hc, g1])
        (by simp [find_tag, Node.tags, List.lookup, readNames, g2, g3, g7, f3, hrey])
        (by simp [find_tag, Node.tags, List.lookup, readNames, g4, g5,
                  splitColon_joinColon mat.col_names hcne hcnc])
      rw [hr, hc] at hread
      exact hread
    case neg =>
      have h1 : mat.col_names.length = 0 := by omega
      have hcey : mat.col_names = [] := List.length_eq_zero.mp h1
      have hw : write_named_matrix kind mat =
          (mat, [WItem.startBlock FIFF.FIFFB_MNE_NAMED_MATRIX,
                 WItem.tag FIFF.FIFF_MNE_NROW (TagData.int mat.nrow),
                 WItem.tag FIFF.FIFF_MNE_NCOL (TagData.int mat.ncol),
                 WItem.tag kind (TagData.mat mat.data),
                 WItem.endBlock FIFF.FIFFB_MNE_NAMED_MATRIX], none) := by
        simp [write_named_matrix, writeColNames, writeTail, hsz, hre, hce,
              write_int, write_name_list, write_float_matrix]
      rw [hw]
      refine ⟨rfl, ?_⟩
      have hread := read_success
        (Node.mk FIFF.FIFFB_MNE_NAMED_MATRIX []
          [FIFF.FIFF_MNE_NROW, FIFF.FIFF_MNE_NCOL, kind]
          [(FIFF.FIFF_MNE_NROW, TagData.int mat.nrow),
           (FIFF.FIFF_MNE_NCOL, TagData.int mat.ncol),
           (kind, TagData.mat mat.data)])
        kind
        (Node.mk FIFF.FIFFB_MNE_NAMED_MATRIX []
          [FIFF.FIFF_MNE_NROW, FIFF.FIFF_MNE_NCOL, kind]
          [(FIFF.FIFF_MNE_NROW, TagData.int mat.nrow),
           (FIFF.FIFF_MNE_NCOL, TagData.int mat.ncol),
           (kind, TagData.mat mat.data)])
        mat.data mat.row_names mat.col_names
        (by simp [resolveNode, Node.block, has_tag, Node.dir, Node.children,
                  List.contains, List.elem, e1, e2, e3, e4])
        (by simp [find_tag, Node.tags, List.lookup, e1, e2, e3, e4])
        (by simp [find_tag, Node.tags, List.lookup, dimTagMismatch, hr])
        (by simp [find_tag, Node.tags, List.lookup, dimTagMismatch, hc, g1])
        (by simp [find_tag, Node.tags, List.lookup, readNames, g2, g3, f3, hrey])
        (by simp [find_tag, Node.tags, List.lookup, readNames, g4, g5, f4, hcey])
      rw [hr, hc] at hread
      exact hread

/-- C1 (amended): the element-count gate fails before anything is
emitted (the stream is untouched), but a label-count failure is raised
only after the block marker and the two count tags (and, for the
column gate, possibly the row-names tag) have been written: the exact
partial output of each error path of `write_named_matrix`. -/
theorem write_error_emission (kind : Nat) (mat : NamedMatrix) :
    (mat.data.size ≠ mat.nrow * mat.ncol → (write_named_matrix kind mat).2.1 = []) ∧
    ((write_named_matrix kind mat).2.2 = some WriteError.rowNamesLength →
       (write_named_matrix kind mat).2.1 =
         [WItem.startBlock FIFF.FIFFB_MNE_NAMED_MATRIX,
          write_int FIFF.FIFF_MNE_NROW mat.nrow,
          write_int FIFF.FIFF_MNE_NCOL mat.ncol]) ∧
    ((write_named_matrix kind mat).2.2 = some WriteError.colNamesLength →
       (write_named_matrix kind mat).2.1 =
         (if 0 < mat.row_names.length then
            [WItem.startBlock FIFF.FIFFB_MNE_NAMED_MATRIX,
             write_int FIFF.FIFF_MNE_NROW mat.nrow,
             write_int FIFF.FIFF_MNE_NCOL mat.ncol,
             write_name_list FIFF.FIFF_MNE_ROW_NAMES mat.row_names]
          else
            [WItem.startBlock FIFF.FIFFB_MNE_NAMED_MATRIX,
             write_int FIFF.FIFF_MNE_NROW mat.nrow,
             write_int FIFF.FIFF_MNE_NCOL mat.ncol])) := by
  refine ⟨?_, ?_, ?_⟩
  · intro h
    simp only [write_named_matrix, if_pos h]
    split <;> rfl
  · intro h
    simp only [write_named_matrix, writeColNames, writeTail] at h ⊢
    split_ifs at h ⊢ <;> simp_all
  · intro h
    simp only [write_named_matrix, writeColNames, writeTail] at h ⊢
    split_ifs at h ⊢ <;> simp_all

/-- C4: `_read_named_matrix` resolves its working node as follows: a
named-matrix node is used itself exactly when it carries the requested
tag; otherwise the first child that both is a named-matrix block and
carries the tag is used (nothing earlier in the child list matches);
and when no node is resolved the reader returns `none` and raises
nothing. -/
theorem locate_matrix_node (node : Node) (matkind : Nat) (tr : Bool) :
    (node.block = FIFF.FIFFB_MNE_NAMED_MATRIX →
       (has_tag node matkind = true → resolveNode node matkind = some node) ∧
       (has_tag node matkind = false → resolveNode node matkind = none)) ∧
    (node.block ≠ FIFF.FIFFB_MNE_NAMED_MATRIX →
       (∀ nd, resolveNode node matkind = some nd →
         ∃ i : Nat, ∃ hi : i < node.children.length,
           node.children.get ⟨i, hi⟩ = nd ∧
           nd.block = FIFF.FIFFB_MNE_NAMED_MATRIX ∧ has_tag nd matkind = true ∧
           ∀ j, ∀ hj : j < i,
             ¬((node.children.get ⟨j, Nat.lt_trans hj hi⟩).block
                 = FIFF.FIFFB_MNE_NAMED_MATRIX ∧
               has_tag (node.children.get ⟨j, Nat.lt_trans hj hi⟩) matkind = true)) ∧
       (resolveNode node matkind = none ↔
         ∀ c ∈ node.children,
           ¬(c.block = FIFF.FIFFB_MNE_NAMED_MATRIX ∧ has_tag c matkind = true))) ∧
    (resolveNode node matkind = none →
       read_named_matrix node matkind tr = Except.ok none) := by
  refine ⟨?_, ?_, ?_⟩
  · intro hb
    constructor
    · intro ht
      rw [resolveNode, if_neg (by simp [hb]), if_pos ht]
    · intro ht
      rw [resolveNode, if_neg (by simp [hb]), if_neg (by simp [ht])]
  · intro hb
    constructor
    · intro nd h
      rw [resolveNode, if_pos hb] at h
      obtain ⟨i, hi, hget, hpa, hbefore⟩ := find?_first _ _ _ h
      refine ⟨i, hi, hget, ?_, ?_, ?_⟩
      · simpa using (Bool.and_eq_true _ _ |>.mp hpa).1
      · exact (Bool.and_eq_true _ _ |>.mp hpa).2
      · intro j hj hcontra
        have hb2 := hbefore j hj
        rcases hcontra with ⟨hc1, hc2⟩
        simp only [Bool.and_eq_false_iff, beq_iff_eq, beq_eq_false_iff_ne, ne_eq,
          List.get_eq_getElem] at hb2
        simp only [List.get_eq_getElem] at hc1 hc2
        rcases hb2 with hb3 | hb3
        · exact hb3 hc1
        · rw [hb3] at hc2
          exact absurd hc2 (by decide)
    · rw [resolveNode, if_pos hb, List.find?_eq_none]
      constructor
      · intro h c hc hcontra
        have := h c hc
        simp [hcontra.1, hcontra.2] at this
      · intro h c hc
        have := h c hc
        simp only [Bool.and_eq_true, beq_iff_eq]
        intro hcontra
        exact this ⟨hcontra.1, hcontra.2⟩
  · intro h
    simp only [read_named_matrix, h]

/-- C5: a present row-count tag whose integer value differs from the
payload's row count makes the reader fail with the row dimension
mismatch error (same for columns, with the column error); an absent
count tag produces no error for that dimension. -/
theorem dim_crosscheck (node : Node) (matkind : Nat) (tr : Bool) (nd : Node) (a : NDArr)
    (hres : resolveNode node matkind = some nd)
    (hmat : find_tag nd matkind = some (TagData.mat a)) :
    (∀ v : Nat, find_tag nd FIFF.FIFF_MNE_NROW = some (TagData.int v) → v ≠ a.nr →
        read_named_matrix node matkind tr = Except.error ReadError.rowDimMismatch) ∧
    (find_tag nd FIFF.FIFF_MNE_NROW = none →
        read_named_matrix node matkind tr ≠ Except.error ReadError.rowDimMismatch) ∧
    (∀ v : Nat, find_tag nd FIFF.FIFF_MNE_NCOL = some (TagData.int v) → v ≠ a.nc →
        (find_tag nd FIFF.FIFF_MNE_NROW = none ∨
         find_tag nd FIFF.FIFF_MNE_NROW = some (TagData.int a.nr)) →
        read_named_matrix node matkind tr = Except.error ReadError.colDimMismatch) ∧
    (find_tag nd FIFF.FIFF_MNE_NCOL = none →
        read_named_matrix node matkind tr ≠ Except.error ReadError.colDimMismatch) := by
  refine ⟨?_, ?_, ?_, ?_⟩
  · intro v hv hne
    simp [read_named_matrix, hres, hmat, hv, dimTagMismatch, hne]
  · intro hn
    intro hcontra
    simp only [read_named_matrix, hres, hmat, hn, dimTagMismatch] at hcontra
    repeat' split at hcontra
    all_goals simp_all
  · intro v hv hne hrow
    have hrowok : dimTagMismatch (find_tag nd FIFF.FIFF_MNE_NROW) a.nr = false := by
      rcases hrow with h | h <;> simp [h, dimTagMismatch]
    simp only [read_named_matrix, hres, hmat, hrowok, hv]
    simp [dimTagMismatch, hne]
  · intro hn
    intro hcontra
    simp only [read_named_matrix, hres, hmat, hn, dimTagMismatch] at hcontra
    repeat' split at hcontra
    all_goals simp_all

/-- C7: the reader never checks label-list lengths against the matrix
dimensions: a row-names tag decoding to a list whose length differs
from the payload's row count is returned unchanged, with no error. -/
theorem reader_no_label_check (node : Node) (matkind : Nat) (nd : Node) (a : NDArr)
    (s : String) (cn : List String)
    (hres : resolveNode node matkind = some nd)
    (hmat : find_tag nd matkind = some (TagData.mat a))
    (hrow : dimTagMismatch (find_tag nd FIFF.FIFF_MNE_NROW) a.nr = false)
    (hcol : dimTagMismatch (find_tag nd FIFF.FIFF_MNE_NCOL) a.nc = false)
    (hrn : find_tag nd FIFF.FIFF_MNE_ROW_NAMES = some (TagData.str s))
    (hcn : readNames (find_tag nd FIFF.FIFF_MNE_COL_NAMES) = some cn)
    (hlen : (splitColon s).length ≠ a.nr) :
    read_named_matrix node matkind false =
      Except.ok (some { nrow := a.nr, ncol := a.nc, row_names := splitColon s,
                        col_names := cn, data := a }) :=
  read_success node matkind nd a (splitColon s) cn hres hmat hrow hcol
    (by simp [hrn, readNames]) hcn

/-- C8: once a node has been resolved (the has-tag check passed), a
failing payload fetch raises the fatal "Matrix data missing" error
rather than returning `none`; the `none` result is produced only by
the locate step. -/
theorem data_missing_vs_absent (node : Node) (matkind : Nat) (tr : Bool) :
    (∀ nd, resolveNode node matkind = some nd → find_tag nd matkind = none →
       read_named_matrix node matkind tr = Except.error ReadError.dataMissing) ∧
    (read_named_matrix node matkind tr = Except.ok none →
       resolveNode node matkind = none) := by
  constructor
  · intro nd hres hft
    simp only [read_named_matrix, hres, hft]
  · intro h
    by_cases hres : ∃ nd, resolveNode node matkind = some nd
    · exfalso
      obtain ⟨nd, hnd⟩ := hres
      simp only [read_named_matrix, hnd] at h
      repeat' split at h
      all_goals simp at h
    · cases hcase : resolveNode node matkind
      · rfl
      · exact absurd ⟨_, hcase⟩ hres

/-- C6: a non-empty `row_names` whose length differs from `nrow` fails
with the row-specific label-count error (likewise `col_names` against
`ncol` with the column-specific error), while an empty list is never an
error: the name-list tag is simply not written and the write
succeeds. -/
theorem label_length_gate (kind : Nat) (mat : NamedMatrix)
    (hsz : mat.data.size = mat.nrow * mat.ncol) :
    (0 < mat.row_names.length → mat.row_names.length ≠ mat.nrow →
       (write_named_matrix kind mat).2.2 = some WriteError.rowNamesLength) ∧
    (0 < mat.col_names.length → mat.col_names.length ≠ mat.ncol →
       (mat.row_names = [] ∨ mat.row_names.length = mat.nrow) →
       (write_named_matrix kind mat).2.2 = some WriteError.colNamesLength) ∧
    (mat.row_names = [] →
       (mat.col_names = [] ∨ mat.col_names.length = mat.ncol) →
       (write_named_matrix kind mat).2.2 = none ∧
       ∀ names, write_name_list FIFF.FIFF_MNE_ROW_NAMES names ∉
         (write_named_matrix kind mat).2.1) ∧
    (mat.col_names = [] →
       (mat.row_names = [] ∨ mat.row_names.length = mat.nrow) →
       (write_named_matrix kind mat).2.2 = none ∧
       ∀ names, write_name_list FIFF.FIFF_MNE_COL_NAMES names ∉
         (write_named_matrix kind mat).2.1) := by
  have hsz2 : ¬ mat.data.size ≠ mat.nrow * mat.ncol := by simp [hsz]
  have hk1 : FIFF.FIFF_MNE_ROW_NAMES ≠ FIFF.FIFF_MNE_COL_NAMES := by decide
  have hk2 : FIFF.FIFF_MNE_COL_NAMES ≠ FIFF.FIFF_MNE_ROW_NAMES := by decide
  refine ⟨?_, ?_, ?_, ?_⟩
  · intro hpos hne
    simp [write_named_matrix, hsz2, hpos, hne]
  · intro hpos hne hrow
    rcases hrow with h | h
    · simp [write_named_matrix, writeColNames, hsz2, h, hpos, hne]
    · by_cases hre : 0 < mat.row_names.length
      · have hd : 0 < mat.nrow := h ▸ hre
        simp [write_named_matrix, writeColNames, hsz2, h, hre, hd, hpos, hne]
      · simp [write_named_matrix, writeColNames, hsz2, hre, hpos, hne]
  · intro hrow hcol
    have hre : ¬ 0 < mat.row_names.length := by simp [hrow]
    rcases hcol with h | h
    · have hce : ¬ 0 < mat.col_names.length := by simp [h]
      constructor
      · simp [write_named_matrix, writeColNames, writeTail, hsz2, hre, hce]
      · intro names
        simp [write_named_matrix, writeColNames, writeTail, hsz2, hre, hce,
              write_name_list, write_int, write_float_matrix, hk1, hk2]
    · by_cases hce : 0 < mat.col_names.length
      · have hd : 0 < mat.ncol := h ▸ hce
        constructor
        · simp [write_named_matrix, writeColNames, writeTail, hsz2, hre, hce, h, hd]
        · intro names
          simp [write_named_matrix, writeColNames, writeTail, hsz2, hre, hce, h, hd,
                write_name_list, write_int, write_float_matrix, hk1, hk2]
      · constructor
        · simp [write_named_matrix, writeColNames, writeTail, hsz2, hre, hce]
        · intro names
          simp [write_named_matrix, writeColNames, writeTail, hsz2, hre, hce,
                write_name_list, write_int, write_float_matrix, hk1, hk2]
  · intro hcol hrow
    have hce : ¬ 0 < mat.col_names.length := by simp [hcol]
    rcases hrow with h | h
    · have hre : ¬ 0 < mat.row_names.length := by simp [h]
      constructor
      · simp [write_named_matrix, writeColNames, writeTail, hsz2, hre, hce]
      · intro names
        simp [write_named_matrix, writeColNames, writeTail, hsz2, hre, hce,
              write_name_list, write_int, write_float_matrix, hk1, hk2]
    · by_cases hre : 0 < mat.row_names.length
      · have hd : 0 < mat.nrow := h ▸ hre
        constructor
        · simp [write_named_matrix, writeColNames, writeTail, hsz2, hre, hce, h, hd]
        · intro names
          simp [write_named_matrix, writeColNames, writeTail, hsz2, hre, hce, h, hd,
                write_name_list, write_int, write_float_matrix, hk1, hk2]
      · constructor
        · simp [write_named_matrix, writeColNames, writeTail, hsz2, hre, hce]
        · intro names
          simp [write_named_matrix, writeColNames, writeTail, hsz2, hre, hce,
                write_name_list, write_int, write_float_matrix, hk1, hk2]

/-- C3 (amended): when `nrow*ncol` differs from the payload's element
count and the payload is non-empty, `write_named_matrix` fails with the
shape-mismatch error before any block marker or tag is written, and the
message's ratio is `n_tot/size`, replaced by its reciprocal `size/n_tot`
whenever `n_tot < size` and the ratio is positive; when the payload is
empty the ratio computation itself fails with a division-by-zero error,
still before anything is written. -/
theorem write_shape_gate (kind : Nat) (mat : NamedMatrix)
    (hne : mat.data.size ≠ mat.nrow * mat.ncol) :
    (write_named_matrix kind mat).2.1 = [] ∧
    (0 < mat.data.size →
      (write_named_matrix kind mat).2.2 =
        some (WriteError.shapeMismatch (mat.nrow * mat.ncol) mat.data.size
          (if mat.nrow * mat.ncol < mat.data.size ∧
              0 < (((mat.nrow * mat.ncol : Nat) : ℚ) / ((mat.data.size : Nat) : ℚ))
           then ((mat.data.size : Nat) : ℚ) / ((mat.nrow * mat.ncol : Nat) : ℚ)
           else ((mat.nrow * mat.ncol : Nat) : ℚ) / ((mat.data.size : Nat) : ℚ)))) ∧
    (mat.data.size = 0 →
      (write_named_matrix kind mat).2.2 = some WriteError.zeroDivision) := by
  refine ⟨?_, ?_, ?_⟩
  · simp only [write_named_matrix, if_pos hne]
    split <;> rfl
  · intro hpos
    have hz : ¬ mat.data.size = 0 := by omega
    simp only [write_named_matrix, if_pos hne, if_neg hz, shapeRatio]
    congr 2
    split
    · rw [one_div_div]
    · rfl
  · intro hz
    simp only [write_named_matrix, if_pos hne, if_pos hz]

/-- C3 witness: the spec's example — declaring 3 rows and 4 columns over
a 10-element payload emits nothing and reports a shape mismatch with
ratio 12/10 = 6/5 = 1.2. -/
theorem write_shape_gate_witness :
    (write_named_matrix 7 matShapeEx).2.1 = [] ∧
    (write_named_matrix 7 matShapeEx).2.2
      = some (WriteError.shapeMismatch 12 10 (6 / 5 : ℚ)) := by
  have h := write_shape_gate 7 matShapeEx (by decide)
  refine ⟨h.1, ?_⟩
  have h2 := h.2.1 (by decide)
  rw [h2]
  norm_num [matShapeEx, NDArr.size, arr25]

/-- C3 counterexample: a record whose payload is empty but whose declared
dimensions are not fails with the division-by-zero error, not with a
shape-mismatch error. -/
theorem write_shape_gate_cex :
    matZeroSize.data.size ≠ matZeroSize.nrow * matZeroSize.ncol ∧
    (write_named_matrix 7 matZeroSize).2.2 = some WriteError.zeroDivision ∧
    Option.map WriteError.isShapeMismatch (write_named_matrix 7 matZeroSize).2.2
      = some false := by decide

/-- C1 witness: the shape-mismatch failure leaves the stream untouched. -/
theorem write_error_emission_witness :
    (write_named_matrix 7 matShapeEx).2.1 = [] :=
  (write_error_emission 7 matShapeEx).1 (by decide)

/-- C1 counterexample: a record failing the row-label gate still emits
three items (block marker and the two count tags) before the error —
the failed call does not leave the stream untouched. -/
theorem write_error_emission_cex :
    (write_named_matrix 7 matShortLabels).2.2 = some WriteError.rowNamesLength ∧
    ((write_named_matrix 7 matShortLabels).2.1).length = 3 := by decide

/-- C2 witness: the labelled record round-trips exactly, and
`["A","B","C"]` serializes to `"A:B:C"` and back. -/
theorem write_read_roundtrip_witness :
    joinColon ["A", "B", "C"] = "A:B:C" ∧
    splitColon "A:B:C" = ["A", "B", "C"] ∧
    ((write_named_matrix 7 matABC).2.2 = none ∧
     read_named_matrix (nodeOfStream (write_named_matrix 7 matABC).2.1) 7 false
       = Except.ok (some matABC)) :=
  ⟨by decide, by decide,
   write_read_roundtrip 7 matABC (by decide) (by decide) (by decide) (by decide)
     (by decide) (by decide) (by decide) (by decide) (by decide) (by decide)⟩

/-- C2 counterexample: a consistent record whose single row name is
`"A:B"` satisfies every hypothesis of the claim, yet reads back with
row names `["A", "B"]`, not `["A:B"]`. -/
theorem write_read_roundtrip_cex :
    matColonName.row_names.length = matColonName.nrow ∧
    matColonName.data.nr = matColonName.nrow ∧
    matColonName.data.nc = matColonName.ncol ∧
    (write_named_matrix 7 matColonName).2.2 = none ∧
    Except.map (fun o => Option.map NamedMatrix.row_names o)
        (read_named_matrix (nodeOfStream (write_named_matrix 7 matColonName).2.1) 7 false)
      = Except.ok (some [("A" : String), "B"]) ∧
    (["A", "B"] : List String) ≠ ["A:B"] :=
  ⟨by decide, by decide, by decide, by rfl, by rfl, by decide⟩

/-- C4 witness: a node with no matching descendant gives the non-fatal
`none` result. -/
theorem locate_matrix_node_witness :
    read_named_matrix nodeNoMatrix 7 false = Except.ok none :=
  (locate_matrix_node nodeNoMatrix 7 false).2.2 (by rfl)

/-- C5 witness: the spec's example — a 3-by-4 payload with an explicit
row-count tag of 5 fails with the row dimension mismatch. -/
theorem dim_crosscheck_witness :
    read_named_matrix nodeBadRowTag 7 false = Except.error ReadError.rowDimMismatch :=
  (dim_crosscheck nodeBadRowTag 7 false nodeBadRowTag arr34 rfl rfl).1 5 rfl (by decide)

/-- C6 witness: 3 rows with 2 row names fails the label gate; 3 rows
with no row names succeeds. -/
theorem label_length_gate_witness :
    (write_named_matrix 7 matShortLabels).2.2 = some WriteError.rowNamesLength ∧
    (write_named_matrix 7 matNoLabels).2.2 = none :=
  ⟨(label_length_gate 7 matShortLabels (by decide)).1 (by decide) (by decide),
   ((label_length_gate 7 matNoLabels (by decide)).2.2.1 (by decide) (by decide)).1⟩

/-- C7 witness: a 2-by-2 payload with three row names is returned with
the three names unchanged and no error. -/
theorem reader_no_label_check_witness :
    (splitColon "a:b:c").length ≠ arr22.nr ∧
    read_named_matrix nodeLongNames 7 false =
      Except.ok (some { nrow := 2, ncol := 2, row_names := ["a", "b", "c"],
                        col_names := [], data := arr22 }) := by
  constructor
  · decide
  · exact reader_no_label_check nodeLongNames 7 nodeLongNames arr22 "a:b:c" []
      rfl rfl rfl rfl rfl rfl (by decide)

/-- C8 witness: a directory listing kind 7 with no fetchable tag of
kind 7 raises the fatal data-missing error rather than returning
`none`. -/
theorem data_missing_vs_absent_witness :
    read_named_matrix nodeGhostDir 7 false = Except.error ReadError.dataMissing :=
  (data_missing_vs_absent nodeGhostDir 7 false).1 nodeGhostDir rfl rfl

/-- C9: the transpose operation is an involution — applying it twice
returns a record equal in all fields to the original. -/
theorem transpose_involution (mat : NamedMatrix) :
    transpose_named_matrix (transpose_named_matrix mat) = mat := rfl

/-- C10: `write_named_matrix` only reads the record it is given: on
every path, success or failure, the record it returns alongside the
stream output is the input record unchanged. -/
theorem write_preserves_record (kind : Nat) (mat : NamedMatrix) :
    (write_named_matrix kind mat).1 = mat := by
  simp only [write_named_matrix, writeColNames, writeTail]
  repeat' split
  all_goals rfl
